import Mathlib

/-
Verification of the QUIC perf ThroughputServer (src/perf/lib/ThroughputServer.cpp)
against its natural-language specification.

The C++ callbacks are embedded as pure functions from the delivered event type
(plus the results of external calls the code branches on) to the list of
transport/tracker calls the callback issues and the status it returns.
-/

namespace ThroughputServer

/-- Status codes as the code distinguishes them: QUIC_STATUS_SUCCESS,
QUIC_STATUS_INVALID_PARAMETER, and any other (failing) status propagated from a
collaborator.  QUIC_FAILED holds exactly on the non-success constructors. -/
inductive QuicStatus where
  | success
  | invalidParameter
  | failure (code : Nat)
deriving DecidableEq, Repr

/-- QUIC_FAILED: every status other than success counts as failed here
(the code never handles QUIC_STATUS_PENDING). -/
def QuicStatus.failed : QuicStatus → Bool
  | .success => false
  | .invalidParameter => true
  | .failure _ => true

/-- Listener-level event types; `other n` stands for any event type the switch
in ListenerCallback has no case for. -/
inductive ListenerEventType where
  | newConnection
  | other (n : Nat)
deriving DecidableEq, Repr

/-- Connection-level event types; `other n` stands for any event type the
switch in ConnectionCallback has no case for (hits its `default:`). -/
inductive ConnectionEventType where
  | shutdownComplete
  | peerStreamStarted
  | other (n : Nat)
deriving DecidableEq, Repr

/-- Stream-level event types; `other n` stands for any event type the switch
in StreamCallback has no case for (hits its `default:`). -/
inductive StreamEventType where
  | peerSendAborted
  | peerReceiveAborted
  | shutdownComplete
  | other (n : Nat)
deriving DecidableEq, Repr

/-- The externally visible calls the callbacks make, in program order:
calls into MsQuic, diagnostic output, and CountHelper completion reports. -/
inductive TransportCall where
  | setSecurityConfig
  | setCallbackHandler
  | setParamDisable1rttEncryption
  | writeOutput (msg : String)
  | connectionClose
  | completeItem
  | streamShutdown (abortSend abortReceive : Bool) (errorCode : Nat)
  | streamClose
deriving DecidableEq, Repr

/-- The diagnostic the listener callback prints when disabling 1-RTT
encryption fails (ThroughputServer.cpp:144). -/
def setParamFailedMsg : String :=
  "MsQuic->SetParam (CONN_DISABLE_1RTT_ENCRYPTION) failed!\n"

/-- ThroughputServer::ListenerCallback (ThroughputServer.cpp:117-150).
`setParamStatus` is the status returned by the MsQuic->SetParam call that
disables 1-RTT encryption; the code only branches on QUIC_FAILED of it.
Returns the list of calls made and the status returned. -/
def ListenerCallback (setParamStatus : QuicStatus) :
    ListenerEventType → List TransportCall × QuicStatus
  | .newConnection =>
      ([TransportCall.setSecurityConfig,
        TransportCall.setCallbackHandler,
        TransportCall.setParamDisable1rttEncryption] ++
        (if setParamStatus.failed then [TransportCall.writeOutput setParamFailedMsg]
         else []),
       QuicStatus.success)
  | .other _ => ([], QuicStatus.success)

/-- ThroughputServer::ConnectionCallback (ThroughputServer.cpp:152-179).
`NumberOfConnections` is the configured connection count; on
SHUTDOWN_COMPLETE the code closes the connection and, only when the count
is positive, reports one completion to the CountHelper. -/
def ConnectionCallback (NumberOfConnections : Nat) :
    ConnectionEventType → List TransportCall × QuicStatus
  | .shutdownComplete =>
      (TransportCall.connectionClose ::
        (if NumberOfConnections > 0 then [TransportCall.completeItem] else []),
       QuicStatus.success)
  | .peerStreamStarted => ([TransportCall.setCallbackHandler], QuicStatus.success)
  | .other _ => ([], QuicStatus.success)

/-- ThroughputServer::StreamCallback (ThroughputServer.cpp:181-202).
The C++ switch nests the `default:` label inside the braces of the
SHUTDOWN_COMPLETE case; since C++ case labels remain targets of the enclosing
switch through block braces, and the SHUTDOWN_COMPLETE arm executes `break`
before control reaches `default:`, the observable dispatch is: either abort
event issues one two-sided abortive StreamShutdown with error code 0;
SHUTDOWN_COMPLETE issues one StreamClose; every other event type jumps to
`default:` and performs no call. -/
def StreamCallback : StreamEventType → List TransportCall × QuicStatus
  | .peerSendAborted =>
      ([TransportCall.streamShutdown true true 0], QuicStatus.success)
  | .peerReceiveAborted =>
      ([TransportCall.streamShutdown true true 0], QuicStatus.success)
  | .shutdownComplete => ([TransportCall.streamClose], QuicStatus.success)
  | .other _ => ([], QuicStatus.success)

/-- Which CountHelper wait ThroughputServer::Wait invokes: a bounded wait with
the given timeout, or WaitForever. -/
inductive WaitKind where
  | bounded (timeout : Int)
  | forever
deriving DecidableEq, Repr

/-- Outcome of the underlying bounded wait: the completion signal fired, or
the timeout elapsed first. -/
inductive WaitOutcome where
  | completed
  | timedOut
deriving DecidableEq, Repr

/-- ThroughputServer::Wait (ThroughputServer.cpp:105-115).  `Timeout` is a C
int.  `boundedOutcome` is what the underlying RefCount.Wait(Timeout) reported;
the C++ discards that result (the call's value is not examined), so it does
not influence the returned status.  Returns which wait was performed and the
status Wait returns to the caller. -/
def Wait (Timeout : Int) (boundedOutcome : WaitOutcome) :
    WaitKind × QuicStatus :=
  if Timeout > 0 then
    (WaitKind.bounded Timeout, QuicStatus.success)
  else
    (WaitKind.forever, QuicStatus.success)

/-- Tracker operations issued against the CountHelper: AddItem and
CompleteItem. -/
inductive TrackerOp where
  | add
  | complete
deriving DecidableEq, Repr

/-- ThroughputServer::Start (ThroughputServer.cpp:73-103).
`listenerStartStatus` is the status of Listener.Start.  On bind failure the
status is returned at once and the CountHelper is never touched (`none`);
otherwise the for loop registers one AddItem per expected connection when
NumberOfConnections > 0 (rendered as a fold over the loop's index range), a
single sentinel AddItem when it is 0, and Start returns success.  The second
component is the trace of tracker operations issued. -/
def Start (listenerStartStatus : QuicStatus) (NumberOfConnections : Nat) :
    QuicStatus × Option (List TrackerOp) :=
  if listenerStartStatus.failed then
    (listenerStartStatus, none)
  else
    (QuicStatus.success,
     some
       (if NumberOfConnections > 0 then
          (List.range NumberOfConnections).foldl
            (fun acc _ => acc ++ [TrackerOp.add]) []
        else [TrackerOp.add]))

/-- ThroughputServer::Init (ThroughputServer.cpp:47-71).  `helpRequested`
stands for `argc > 0 && (IsArg(argv[0], "?") || IsArg(argv[0], "help"))`;
`listenerInitStatus` is the listener's construction status (IsValid holds
iff it did not fail); `securityInitStatus` is what
SecurityConfig.Initialize(argc, argv, ...) returns for this argument vector.
TryGetValue for port/connections cannot fail and does not affect the status. -/
def Init (helpRequested : Bool)
    (listenerInitStatus securityInitStatus : QuicStatus) : QuicStatus :=
  if helpRequested then
    QuicStatus.invalidParameter
  else if listenerInitStatus.failed then
    listenerInitStatus
  else if securityInitStatus.failed then
    securityInitStatus
  else
    QuicStatus.success

/-- Modelled from the spec: the CountHelper (the spec's CompletionTracker),
whose implementation is not part of this source file.  State is
{registered, remaining, signal} per spec section 3; `addItem` atomically
increments registered and remaining (spec section 4.1). -/
structure CountHelper where
  registered : Nat
  remaining : Nat
  signaled : Bool
deriving DecidableEq, Repr

/-- The CountHelper state right after construction, before any AddItem. -/
def CountHelper.init : CountHelper := ⟨0, 0, false⟩

/-- Modelled from the spec: `addItem()` atomically increments registered and
remaining (spec section 4.1). -/
def CountHelper.addItem (c : CountHelper) : CountHelper :=
  { c with registered := c.registered + 1, remaining := c.remaining + 1 }

/-- Modelled from the spec: `completeItem()` atomically decrements remaining;
fails fatally (defensive abort, rendered as `none`) if called when remaining
is already 0; when remaining transitions to 0 it sets the completion signal,
which stays set (spec section 4.1). -/
def CountHelper.completeItem (c : CountHelper) : Option CountHelper :=
  if c.remaining = 0 then
    none
  else
    some { c with
            remaining := c.remaining - 1,
            signaled := c.signaled || (c.remaining - 1 == 0) }

/-- Runs a sequence of tracker operations from a starting state; `none` means
the fatal defensive abort fired at some CompleteItem. -/
def runOps : List TrackerOp → CountHelper → Option CountHelper
  | [], c => some c
  | TrackerOp.add :: rest, c => runOps rest c.addItem
  | TrackerOp.complete :: rest, c => (c.completeItem).bind (runOps rest)

end ThroughputServer

namespace ThroughputServer

/-- C4: on peer-send-aborted and on peer-receive-aborted the stream callback
issues exactly one abortive StreamShutdown aborting both directions with
error code 0, and makes no other transport call. -/
theorem stream_abort_single_two_sided_shutdown :
    (StreamCallback StreamEventType.peerSendAborted).1 =
      [TransportCall.streamShutdown true true 0] ∧
    (StreamCallback StreamEventType.peerReceiveAborted).1 =
      [TransportCall.streamShutdown true true 0] := by
  exact ⟨rfl, rfl⟩

/-- C5: StreamClose is called exactly once, on shutdown-complete and on no
other event; any stream event other than the two abort events and
shutdown-complete results in no transport call at all — despite the nested
`default:` label, each event type reaches its own independent branch. -/
theorem stream_close_only_on_shutdown_complete :
    (StreamCallback StreamEventType.shutdownComplete).1 =
      [TransportCall.streamClose] ∧
    (∀ e : StreamEventType,
      ((StreamCallback e).1.count TransportCall.streamClose) =
        (if e = StreamEventType.shutdownComplete then 1 else 0)) ∧
    (∀ n : Nat, (StreamCallback (StreamEventType.other n)).1 = []) := by
  refine ⟨rfl, ?_, fun n => rfl⟩
  intro e
  cases e <;> simp [StreamCallback]

/-- C8: every event delivered to the listener, connection, or stream callback
gets the success status back, and unrecognized event types are no-ops. -/
theorem callbacks_always_return_success :
    (∀ (s : QuicStatus) (e : ListenerEventType),
      (ListenerCallback s e).2 = QuicStatus.success) ∧
    (∀ (N : Nat) (e : ConnectionEventType),
      (ConnectionCallback N e).2 = QuicStatus.success) ∧
    (∀ e : StreamEventType, (StreamCallback e).2 = QuicStatus.success) ∧
    (∀ (s : QuicStatus) (n : Nat),
      (ListenerCallback s (ListenerEventType.other n)).1 = []) ∧
    (∀ (N n : Nat),
      (ConnectionCallback N (ConnectionEventType.other n)).1 = []) ∧
    (∀ n : Nat, (StreamCallback (StreamEventType.other n)).1 = []) := by
  refine ⟨?_, ?_, ?_, fun s n => rfl, fun N n => rfl, fun n => rfl⟩
  · intro s e; cases e <;> rfl
  · intro N e; cases e <;> rfl
  · intro e; cases e <;> rfl

/-- C10: a strictly positive timeout yields the bounded wait with that
timeout; a zero or negative timeout yields the unbounded wait-forever; in
every case Wait returns the success status. -/
theorem wait_dispatch (t : Int) (o : WaitOutcome) :
    (t > 0 → Wait t o = (WaitKind.bounded t, QuicStatus.success)) ∧
    (t ≤ 0 → Wait t o = (WaitKind.forever, QuicStatus.success)) := by
  constructor
  · intro h; simp [Wait, h]
  · intro h; simp [Wait, not_lt.mpr h]

/-- Witness for C10's theorem at timeouts 5 and 0. -/
theorem wait_dispatch_witness :
    Wait 5 WaitOutcome.completed = (WaitKind.bounded 5, QuicStatus.success) ∧
    Wait 0 WaitOutcome.completed = (WaitKind.forever, QuicStatus.success) :=
  ⟨(wait_dispatch 5 WaitOutcome.completed).1 (by decide),
   (wait_dispatch 0 WaitOutcome.completed).2 (by decide)⟩

/-- C3 counterexample: at timeout 1, Wait returns the same status whether the
underlying bounded wait completed or timed out, so the caller cannot tell the
two outcomes apart from Wait's return value, contrary to the claim. -/
theorem wait_status_not_distinguishing :
    (Wait 1 WaitOutcome.completed).2 = (Wait 1 WaitOutcome.timedOut).2 := by
  rfl

/-- C3 amended: Wait always returns the success status, regardless of the
timeout and of whether the underlying wait completed or timed out; completion
versus timeout is not observable through Wait's return value. -/
theorem wait_always_success (t : Int) (o : WaitOutcome) :
    (Wait t o).2 = QuicStatus.success := by
  unfold Wait
  by_cases h : t > 0 <;> simp [h]

/-- Folding AddItem appends over any index list issues exactly one AddItem per
element: helper for the registration loop in Start. -/
theorem foldl_add_count (l : List Nat) (acc : List TrackerOp) :
    ((l.foldl (fun acc _ => acc ++ [TrackerOp.add]) acc).count TrackerOp.add) =
      acc.count TrackerOp.add + l.length := by
  induction l generalizing acc with
  | nil => rfl
  | cons x xs ih =>
    rw [List.foldl_cons, ih]
    simp [List.count_append]
    omega

/-- The registration loop's trace has one entry per loop iteration: helper for
the registration loop in Start. -/
theorem foldl_add_length (l : List Nat) (acc : List TrackerOp) :
    (l.foldl (fun acc _ => acc ++ [TrackerOp.add]) acc).length =
      acc.length + l.length := by
  induction l generalizing acc with
  | nil => rfl
  | cons x xs ih =>
    rw [List.foldl_cons, ih]
    simp
    omega

/-- C1: once the listener bind succeeds, Start issues exactly
NumberOfConnections AddItem calls when the count is positive and exactly one
sentinel AddItem when it is zero, and returns success in both cases. -/
theorem start_registers_expected_items (s : QuicStatus) (N : Nat)
    (h : s.failed = false) :
    (Start s N).1 = QuicStatus.success ∧
    ∃ ops, (Start s N).2 = some ops ∧
      ops.count TrackerOp.add = (if N > 0 then N else 1) ∧
      ops.length = (if N > 0 then N else 1) := by
  by_cases hN : N > 0
  · refine ⟨by simp [Start, h],
      (List.range N).foldl (fun acc _ => acc ++ [TrackerOp.add]) [],
      by simp [Start, h, hN], ?_, ?_⟩
    · rw [foldl_add_count]
      simp [hN]
    · rw [foldl_add_length]
      simp [hN]
  · exact ⟨by simp [Start, h], [TrackerOp.add], by simp [Start, h, hN],
      by simp [hN], by simp [hN]⟩

/-- Witness for C1's theorem at a successful bind with 3 configured
connections. -/
theorem start_registers_expected_items_witness :
    (Start QuicStatus.success 3).1 = QuicStatus.success ∧
    ∃ ops, (Start QuicStatus.success 3).2 = some ops ∧
      ops.count TrackerOp.add = 3 ∧ ops.length = 3 := by
  have h := start_registers_expected_items QuicStatus.success 3 rfl
  simpa using h

/-- C2: on the connection-level shutdown-complete event the handler closes
the connection handle exactly once, reports exactly one completion iff the
configured connection count is positive, none otherwise, and returns
success. -/
theorem connection_shutdown_complete_behavior (N : Nat) :
    ((ConnectionCallback N ConnectionEventType.shutdownComplete).1.count
        TransportCall.connectionClose = 1) ∧
    ((ConnectionCallback N ConnectionEventType.shutdownComplete).1.count
        TransportCall.completeItem = if N > 0 then 1 else 0) ∧
    ((ConnectionCallback N ConnectionEventType.shutdownComplete).2 =
        QuicStatus.success) := by
  by_cases h : N > 0 <;> simp [ConnectionCallback, h]

/-- C6: Init returns the invalid-parameter status whenever the first argument
requests help, and propagates the failure status of security-configuration
initialization when the listener is valid; in both cases the result is a
failed status, so start-up does not proceed. -/
theorem init_failure_paths (ls ss : QuicStatus) :
    (Init true ls ss = QuicStatus.invalidParameter ∧
      (Init true ls ss).failed = true) ∧
    (ls.failed = false → ss.failed = true →
      Init false ls ss = ss ∧ (Init false ls ss).failed = true) := by
  refine ⟨⟨rfl, rfl⟩, ?_⟩
  intro h1 h2
  simp [Init, h1, h2]

/-- Witness for C6's theorem: help requested, and a propagated
security-configuration failure with a valid listener. -/
theorem init_failure_paths_witness :
    Init true QuicStatus.success QuicStatus.success =
      QuicStatus.invalidParameter ∧
    Init false QuicStatus.success (QuicStatus.failure 7) =
      QuicStatus.failure 7 :=
  ⟨(init_failure_paths QuicStatus.success QuicStatus.success).1.1,
   ((init_failure_paths QuicStatus.success (QuicStatus.failure 7)).2
      rfl rfl).1⟩

/-- C7: on new-connection the listener callback attaches the security
configuration, installs the connection handler, and attempts to disable
1-RTT encryption; when that parameter call fails it only adds a diagnostic
message, and the event returns success either way. -/
theorem new_connection_handling (s : QuicStatus) :
    ((ListenerCallback s ListenerEventType.newConnection).2 =
        QuicStatus.success) ∧
    (s.failed = false →
      (ListenerCallback s ListenerEventType.newConnection).1 =
        [TransportCall.setSecurityConfig, TransportCall.setCallbackHandler,
         TransportCall.setParamDisable1rttEncryption]) ∧
    (s.failed = true →
      (ListenerCallback s ListenerEventType.newConnection).1 =
        [TransportCall.setSecurityConfig, TransportCall.setCallbackHandler,
         TransportCall.setParamDisable1rttEncryption,
         TransportCall.writeOutput setParamFailedMsg]) := by
  refine ⟨rfl, ?_, ?_⟩ <;> intro h <;> simp [ListenerCallback, h]

/-- Witness for C7's theorem at a failing SetParam status. -/
theorem new_connection_handling_witness :
    (ListenerCallback (QuicStatus.failure 3)
        ListenerEventType.newConnection).2 = QuicStatus.success ∧
    (ListenerCallback (QuicStatus.failure 3)
        ListenerEventType.newConnection).1 =
      [TransportCall.setSecurityConfig, TransportCall.setCallbackHandler,
       TransportCall.setParamDisable1rttEncryption,
       TransportCall.writeOutput setParamFailedMsg] :=
  ⟨(new_connection_handling (QuicStatus.failure 3)).1,
   (new_connection_handling (QuicStatus.failure 3)).2.2 rfl⟩

/-- A run of tracker operations that survives (no defensive abort) keeps
exact accounting: final remaining plus completions equals initial remaining
plus additions. -/
theorem runOps_balance (ops : List TrackerOp) :
    ∀ c c', runOps ops c = some c' →
      c'.remaining + ops.count TrackerOp.complete =
        c.remaining + ops.count TrackerOp.add := by
  induction ops with
  | nil =>
    intro c c' h
    simp [runOps] at h
    subst h
    rfl
  | cons op rest ih =>
    intro c c' h
    cases op with
    | add =>
      have hx := ih c.addItem c' (by simpa [runOps] using h)
      simp only [CountHelper.addItem] at hx
      simp [List.count_cons]
      omega
    | complete =>
      simp only [runOps, CountHelper.completeItem] at h
      by_cases h0 : c.remaining = 0
      · simp [h0] at h
      · simp only [h0, if_false] at h
        simp only [Option.some_bind] at h
        have hx := ih _ c' h
        simp [List.count_cons] at hx ⊢
        omega

/-- C9: calling CompleteItem with remaining already 0 triggers the fatal
defensive abort rather than a silent negative count, and in any surviving
run from the initial state completions never exceed additions, remaining
being exactly their difference (never negative). -/
theorem completeItem_underflow_aborts :
    (∀ c : CountHelper, c.remaining = 0 → c.completeItem = none) ∧
    (∀ (ops : List TrackerOp) (c' : CountHelper),
      runOps ops CountHelper.init = some c' →
      ops.count TrackerOp.complete ≤ ops.count TrackerOp.add ∧
      c'.remaining + ops.count TrackerOp.complete =
        ops.count TrackerOp.add) := by
  constructor
  · intro c h
    simp [CountHelper.completeItem, h]
  · intro ops c' h
    have hx := runOps_balance ops CountHelper.init c' h
    simp [CountHelper.init] at hx
    omega

/-- Witness for C9's theorem: an abort at a zero remaining count, and exact
accounting for the run AddItem-then-CompleteItem. -/
theorem completeItem_underflow_aborts_witness :
    CountHelper.completeItem ⟨2, 0, true⟩ = none ∧
    ([TrackerOp.add, TrackerOp.complete].count TrackerOp.complete ≤
       [TrackerOp.add, TrackerOp.complete].count TrackerOp.add) :=
  ⟨completeItem_underflow_aborts.1 ⟨2, 0, true⟩ rfl,
   (completeItem_underflow_aborts.2 [TrackerOp.add, TrackerOp.complete]
      ⟨1, 0, true⟩ (by decide)).1⟩

end ThroughputServer
